import Mathlib

set_option maxHeartbeats 1000000
set_option maxRecDepth 8192

/-- Characters of a Python string value. -/
abbrev Str := List Char

/-- Embed a Lean string literal as a character list. -/
def str (s : String) : Str := s.data

/-- Fuel-driven worker for `strReplace`; the fuel only bounds the recursion
depth and is irrelevant as soon as it is at least the string length. -/
def strReplaceFuel (old new : Str) : Nat → Str → Str
  | _, [] => []
  | 0, s => s
  | fuel + 1, c :: rest =>
    if old.isPrefixOf (c :: rest) && !old.isEmpty then
      new ++ strReplaceFuel old new fuel (rest.drop (old.length - 1))
    else
      c :: strReplaceFuel old new fuel rest

/-- Python `s.replace(old, new)`: replace every occurrence of `old` by `new`,
scanning left to right (occurrences are consumed, not re-scanned). -/
def strReplace (old new : Str) (s : Str) : Str :=
  strReplaceFuel old new s.length s

/-- Split a character list at every character satisfying `p`, keeping the
(possibly empty) chunks between separators. -/
def splitWhen (p : Char → Bool) (s : Str) : List Str :=
  match s with
  | [] => [[]]
  | c :: rest =>
    if p c then [] :: splitWhen p rest
    else
      match splitWhen p rest with
      | [] => [[c]]
      | t :: ts => (c :: t) :: ts

/-- Python `s.split()` with no argument: split on whitespace runs and drop
empty chunks. -/
def splitWs (s : Str) : List Str :=
  (splitWhen (fun c => c.isWhitespace) s).filter (fun t => decide (t ≠ []))

/-- Python `s.split('/')[-1]`: the last `/`-separated segment. -/
def lastSegment (s : Str) : Str :=
  (splitWhen (fun c => decide (c = '/')) s).getLastD []

/-- Decimal digit run to its numeric value (`int` semantics of the digits). -/
def digitsVal (s : Str) : Nat :=
  s.foldl (fun a c => a * 10 + (c.toNat - 48)) 0

/-- Modelled from Python's built-in `float(...)` on the plain decimal literals
produced by WKT coordinates: optional integer part, optional single dot,
optional fraction part, at least one digit overall; everything else fails.
(The exponent/inf/nan forms accepted by Python never arise in these claims.) -/
def parseUnsignedFloat (s : Str) : Option ℚ :=
  match splitWhen (fun c => decide (c = '.')) s with
  | [intP] =>
    if intP ≠ [] ∧ intP.all Char.isDigit then some ((digitsVal intP : ℚ)) else none
  | [intP, fracP] =>
    if (intP ≠ [] ∨ fracP ≠ []) ∧ intP.all Char.isDigit ∧ fracP.all Char.isDigit then
      some (mkRat ((digitsVal intP * 10 ^ fracP.length + digitsVal fracP : Nat) : Int)
        (10 ^ fracP.length))
    else none
  | _ => none

/-- Python `float(...)` with an optional leading sign (decimal subset). -/
def parseFloat (s : Str) : Option ℚ :=
  match s with
  | '-' :: rest => (parseUnsignedFloat rest).map (fun q => -q)
  | '+' :: rest => parseUnsignedFloat rest
  | _ => parseUnsignedFloat s

/-- `wkt.replace("Point(", "").replace(")", "")` then `lon, lat = map(float, clean.split())`
from `parse_results` (src/server.py lines 143-145): yields `(lon, lat)`, failing
(like the caught Python exception) when the split does not give exactly two
parseable numbers. -/
def parseCoord (wkt : Str) : Option (ℚ × ℚ) :=
  let clean := strReplace (str (")")) [] (strReplace (str ("Point(")) [] wkt)
  match splitWs clean with
  | [x, y] =>
    match parseFloat x, parseFloat y with
    | some lon, some lat => some ((lon, lat))
    | _, _ => none
  | _ => none

/-- Substring test (Python `pat in s`): some occurrence of `pat` starts at
some position of `s`. -/
def containsSub (pat : Str) (s : Str) : Bool :=
  match s with
  | [] => pat.isEmpty
  | _ :: rest => pat.isPrefixOf s || containsSub pat rest

/-- Characters that can appear in a plain decimal numeric token. -/
def numChar (c : Char) : Bool :=
  c.isDigit || decide (c = '.') || decide (c = '+') || decide (c = '-')

/-- An identifier string free of the `?` variable marker (the well-formedness
assumption under which query clauses cannot be forged by interpolation). -/
abbrev noQuestion (s : Str) : Prop := ∀ c ∈ s, c ≠ '?'

/-- Invariant used to rule out a forged `?x...` clause in a compiled query:
the two-character seed `?x` never occurs, and the string does not end in `?`
(so concatenation on the right cannot create a new occurrence). -/
def goodFor (x : Char) (s : Str) : Prop :=
  containsSub ['?', x] s = false ∧ s.getLast? ≠ some '?'

/-- One SPARQL binding row as used by `parse_results`: each field models the
`value` string found under the corresponding key, `none` when the key is
missing (a missing key raises `KeyError` in Python, caught row-wise). -/
structure Binding where
  itemLabel : Option Str
  item : Option Str
  coord : Option Str
  geoShapeUrl : Option Str
deriving DecidableEq

/-- The `results` object of a SPARQL JSON response. -/
structure QueryResults where
  bindings : List Binding
deriving DecidableEq

/-- A SPARQL JSON response as consumed by `parse_results`. -/
structure QueryResult where
  results : QueryResults
deriving DecidableEq

/-- One normalized record built by `parse_results`: the Python dict always has
`label` and `id`, and `lat`/`lng` (point) or `geoShapeUrl` (polygon) keys
depending on the dataset type. -/
structure Entry where
  label : Str
  id : Str
  lat : Option ℚ := none
  lng : Option ℚ := none
  geoShapeUrl : Option Str := none
deriving DecidableEq

/-- The body of the `for item in bindings` loop of `parse_results`
(src/server.py lines 135-153): `none` models a raised-and-caught exception
(missing key, or a coordinate that fails to unpack into two floats). -/
def parseRow (dataset_type : Str) (item : Binding) : Option Entry :=
  match item.itemLabel, item.item with
  | some labelV, some itemV =>
    let base : Entry := { label := labelV, id := lastSegment itemV }
    if dataset_type = str ("point") then
      match item.coord with
      | some wkt => (parseCoord wkt).map (fun p => { base with lat := some p.2, lng := some p.1 })
      | none => none
    else if dataset_type = str ("polygon") then
      match item.geoShapeUrl with
      | some u => some { base with geoShapeUrl := some u }
      | none => none
    else some base
  | _, _ => none

/-- The accumulation loop of `parse_results`: rows whose parse raises are
skipped (`continue`), successful rows are appended in order. -/
def parseRows (dataset_type : Str) (bs : List Binding) : List Entry :=
  match bs with
  | [] => []
  | b :: rest =>
    match parseRow dataset_type b with
    | some e => e :: parseRows dataset_type rest
    | none => parseRows dataset_type rest

/-- `parse_results(data, dataset_type)` from src/server.py lines 131-155. -/
def parse_results (data : QueryResult) (dataset_type : Str) : List Entry :=
  parseRows dataset_type data.results.bindings

/-- `Constraint` request model (src/server.py lines 26-28). -/
structure Constraint where
  property : Str
  value : Str
deriving DecidableEq

/-- `DatasetConfig` request model (src/server.py lines 30-36). -/
structure DatasetConfig where
  item_type : Str
  constraints : List Constraint
  dataset_type : Str
  min_pop : Int
  exclude_dissolved : Bool
  limit : Int
deriving DecidableEq

/-- Fuel-driven worker for `natToStr`; the fuel only bounds the recursion
depth and is irrelevant as soon as it is at least the number itself. -/
def natToStrFuel : Nat → Nat → Str
  | 0, n => [Nat.digitChar n]
  | fuel + 1, n =>
    if n < 10 then [Nat.digitChar n]
    else natToStrFuel fuel (n / 10) ++ [Nat.digitChar (n % 10)]

/-- Decimal rendering of a natural number, digit characters only
(Python `str`/f-string rendering of a non-negative int). -/
def natToStr (n : Nat) : Str :=
  natToStrFuel n n

/-- Python f-string rendering of an int. -/
def intToStr (i : Int) : Str :=
  if i < 0 then '-' :: natToStr i.natAbs else natToStr i.natAbs

/-- One iteration of the constraints loop of `build_query`
(src/server.py lines 81-89): a leading `-` marker selects the negated
existence filter over the marker-stripped property. -/
def constraintClause (c : Constraint) : Str :=
  if (str ("-")).isPrefixOf c.property then
    str ("  FILTER NOT EXISTS \x7b ?item wdt:") ++ c.property.drop 1 ++
      str (" wd:") ++ c.value ++ str (". \x7d\n")
  else
    str ("  ?item wdt:") ++ c.property ++ str (" wd:") ++ c.value ++ str (".\n")

/-- `build_query(config)` from src/server.py lines 66-116 (identical to
src/manage_datasets.py lines 89-140), as the sequential concatenation the
Python `+=` statements perform. -/
def build_query (config : DatasetConfig) : Str :=
  str ("SELECT DISTINCT ?item ?itemLabel ")
  ++ (if config.dataset_type = str ("point") then str ("?coord ")
      else if config.dataset_type = str ("polygon") then str ("?geoShapeUrl ") else [])
  ++ str ("?sitelinks ")
  ++ str ("WHERE \x7b\n")
  ++ (str ("  ?item wdt:P31/wdt:P279* wd:") ++ config.item_type ++ str (".\n"))
  ++ (config.constraints.map constraintClause).flatten
  ++ (if config.min_pop > 0 then
        str ("  ?item wdt:P1082 ?pop. FILTER(?pop >= ") ++ intToStr config.min_pop ++ str (").\n")
      else [])
  ++ (if config.exclude_dissolved then str ("  FILTER NOT EXISTS \x7b ?item wdt:P576 ?end. \x7d\n") else [])
  ++ (if config.dataset_type = str ("point") then str ("  ?item wdt:P625 ?coord.\n")
      else if config.dataset_type = str ("polygon") then str ("  ?item wdt:P3896 ?geoShapeUrl.\n") else [])
  ++ str ("  ?item wikibase:sitelinks ?sitelinks.\n")
  ++ str ("  SERVICE wikibase:label \x7b bd:serviceParam wikibase:language \"[AUTO_LANGUAGE],en\". \x7d\n")
  ++ str ("\x7d\n")
  ++ str ("ORDER BY DESC(?sitelinks)\n")
  ++ (str ("LIMIT ") ++ intToStr config.limit)

/-- `SaveRequest` request model (src/server.py lines 38-44). -/
structure SaveRequest where
  id : Option Str
  config : DatasetConfig
  name : Str
  description : Str
  prompt_template : Str
  sub_prompt_template : Str
deriving DecidableEq

/-- `DeleteRequest` request model (src/server.py lines 46-47). -/
structure DeleteRequest where
  id : Str
deriving DecidableEq

/-- One metadata record of `datasets.json` as written by `api_save`
(src/server.py lines 216-231). -/
structure DatasetEntry where
  id : Str
  name : Str
  description : Str
  type : Str
  filename : Str
  prompt_template : Str
  sub_prompt_template : Str
  config : DatasetConfig
  data_keys : List (Str × Str)
deriving DecidableEq

/-- Observable filesystem state of the dataset store: the content of
`datasets.json` (`none` = file absent, `some none` = file present but not
valid JSON, `some (some l)` = valid list), and the data files under
`static/` keyed by filename with their written record lists. -/
structure StoreState where
  datasetsFile : Option (Option (List DatasetEntry))
  files : List (Str × List Entry)
deriving DecidableEq

/-- Ways an endpoint run can end abnormally: an explicit
`HTTPException(status, detail)`, or an uncaught Python exception. -/
inductive HError where
  | httpError (status : Nat) (detail : Str)
  | raised (msg : Str)
deriving DecidableEq

/-- The JSON body returned by a successful `api_save`. -/
structure SaveResponse where
  message : Str
  id : Str
deriving DecidableEq

/-- First-match lookup in an association list (a directory of files). -/
def lookupA {β : Type} (l : List (Str × β)) (k : Str) : Option β :=
  match l with
  | [] => none
  | p :: rest => if p.1 = k then some p.2 else lookupA rest k

/-- Overwrite-or-create a file in an association list directory. -/
def writeA {β : Type} (l : List (Str × β)) (k : Str) (v : β) : List (Str × β) :=
  match l with
  | [] => [(k, v)]
  | p :: rest => if p.1 = k then (k, v) :: rest else p :: writeA rest k v

/-- Loading `datasets.json` in `api_save` (src/server.py lines 188-194):
a missing file or invalid JSON both leave `datasets = []` (the parse error
is swallowed by `except: pass`). -/
def loadDatasets (doc : Option (Option (List DatasetEntry))) : List DatasetEntry :=
  match doc with
  | none => []
  | some none => []
  | some (some l) => l

/-- Python truthiness of the optional `req.id` string (`if req.id:`):
`None` and the empty string are falsy. -/
def pyTruthy (o : Option Str) : Bool :=
  match o with
  | none => false
  | some s => !s.isEmpty

/-- The `for i, d in enumerate(datasets): if d['id'] == rid: datasets[i] = ne; break`
loop of `api_save` (src/server.py lines 235-238): replace the first entry whose
id matches, leave everything else in place. -/
def replaceFirst (rid : Str) (ne : DatasetEntry) (l : List DatasetEntry) : List DatasetEntry :=
  match l with
  | [] => []
  | d :: rest => if d.id = rid then ne :: rest else d :: replaceFirst rid ne rest

/-- The `new_entry` dict built by `api_save` (src/server.py lines 216-231),
including the dataset-type-dependent `data_keys` (note the Python `else`
branch adds `geoShapeUrl` for every non-point type). -/
def mkNewEntry (req : SaveRequest) (dataset_id filename : Str) : DatasetEntry :=
  let base : List (Str × Str) := [(str ("label"), str ("label"))]
  let data_keys :=
    if req.config.dataset_type = str ("point") then
      base ++ [(str ("lat"), str ("lat")), (str ("lng"), str ("lng"))]
    else
      base ++ [(str ("geoShapeUrl"), str ("geoShapeUrl"))]
  { id := dataset_id, name := req.name, description := req.description,
    type := req.config.dataset_type, filename := filename,
    prompt_template := req.prompt_template,
    sub_prompt_template := req.sub_prompt_template,
    config := req.config, data_keys := data_keys }

/-- `api_save` (src/server.py lines 174-246). The already-fetched SPARQL
response is passed in (`none` models a failed fetch), and `now` is the value
of `int(time.time())` during the call (the code reads the clock twice within
the same statement sequence; both reads are modelled by the same value).
File writes are threaded through the state, so a raise aborts with exactly
the writes performed so far. -/
def api_save (req : SaveRequest) (raw_data : Option QueryResult) (now : Nat)
    (st : StoreState) : StoreState × Except HError SaveResponse :=
  match raw_data with
  | none => (st, .error (.httpError 500 (str ("Failed to fetch data"))))
  | some data =>
    let parsed_data := parse_results data req.config.dataset_type
    if parsed_data = [] then
      (st, .error (.httpError 400 (str ("No items found to save"))))
    else
      let datasets := loadDatasets st.datasetsFile
      let idAndFilename : Except HError (Str × Str) :=
        if pyTruthy req.id then
          match datasets.find? (fun d => decide (d.id = req.id.getD [])) with
          | none => .error (.httpError 404 (str ("Dataset not found")))
          | some existing_entry => .ok ((req.id.getD [], existing_entry.filename))
        else
          .ok ((str ("custom_") ++ natToStr now, str ("dataset_") ++ natToStr now ++ str (".json")))
      match idAndFilename with
      | .error e => (st, .error e)
      | .ok (dataset_id, filename) =>
        let st1 : StoreState := { st with files := writeA st.files filename parsed_data }
        let new_entry := mkNewEntry req dataset_id filename
        let datasets' :=
          if pyTruthy req.id then replaceFirst dataset_id new_entry datasets
          else datasets ++ [new_entry]
        ({ st1 with datasetsFile := some (some datasets') },
         .ok { message := str ("Dataset saved successfully"), id := dataset_id })

/-- `api_delete` (src/server.py lines 248-274). An unreadable `datasets.json`
raises out of the handler (there is no try/except around this `json.load`);
a failed `os.remove` is logged and ignored, modelled as the removal
succeeding. -/
def api_delete (req : DeleteRequest) (st : StoreState) : StoreState × Except HError Str :=
  match st.datasetsFile with
  | none => (st, .error (.httpError 404 (str ("No datasets found"))))
  | some none => (st, .error (.raised (str ("JSONDecodeError"))))
  | some (some datasets) =>
    match datasets.find? (fun d => decide (d.id = req.id)) with
    | none => (st, .error (.httpError 404 (str ("Dataset not found"))))
    | some target =>
      let files' := st.files.filter (fun p => decide (p.1 ≠ target.filename))
      let datasets' := datasets.filter (fun d => decide (d.id ≠ req.id))
      (({ datasetsFile := some (some datasets'), files := files' } : StoreState),
       .ok (str ("Dataset deleted")))

/-- Observable state of the `static/maps` shape cache: cached files keyed by
filename with their byte contents (as strings). -/
structure MapsState where
  files : List (Str × Str)
deriving DecidableEq

/-- Outcome of `proxy_map`: a file served from disk, or the 500 response on a
failed upstream fetch. -/
inductive ProxyResponse where
  | file (content : Str)
  | fetchError
deriving DecidableEq

/-- The cache filename of `proxy_map` (src/server.py lines 290-292): hash of
the `'+'`-to-space normalized URL plus `".json"`. `hashHex` stands for the
external `hashlib.md5(...).hexdigest()`. -/
def cacheFilename (hashHex : Str → Str) (url : Str) : Str :=
  hashHex (strReplace (str ("+")) (str (" ")) url) ++ str (".json")

/-- `proxy_map` (src/server.py lines 288-308). `hashHex` models the external
md5 hex digest; `fetchResult` is the upstream response body (`none` = fetch
failure). The returned Bool reports whether an external fetch was performed. -/
def proxy_map (hashHex : Str → Str) (fetchResult : Option Str) (url : Str)
    (st : MapsState) : MapsState × ProxyResponse × Bool :=
  let filename := cacheFilename hashHex url
  match lookupA st.files filename with
  | some content => (st, .file content, false)
  | none =>
    match fetchResult with
    | some body => (({ files := writeA st.files filename body } : MapsState), .file body, true)
    | none => (st, .fetchError, true)


/-- Fixture: a point dataset configuration. -/
def cfgPt : DatasetConfig :=
  { item_type := str ("Q515"), constraints := [], dataset_type := str ("point"),
    min_pop := 0, exclude_dissolved := true, limit := 100 }

/-- Fixture: a polygon dataset configuration. -/
def cfgPoly : DatasetConfig := { cfgPt with dataset_type := str ("polygon") }

/-- Fixture: a point configuration with one negated constraint. -/
def cfgNeg : DatasetConfig :=
  { cfgPt with constraints := [{ property := str ("-P17"), value := str ("Q183") }] }

/-- Fixture: a point configuration whose constraint property embeds the
shape-binding clause text (a query-injection witness). -/
def cfgForged : DatasetConfig :=
  { item_type := str ("Q515"),
    constraints := [{ property := str ("P3896 ?geoShapeUrl.\nx"), value := str ("Q1") }],
    dataset_type := str ("point"), min_pop := 0, exclude_dissolved := false, limit := 100 }

/-- Fixture: a valid point binding row. -/
def bindA : Binding :=
  { itemLabel := some (str ("A")), item := some (str ("http://www.wikidata.org/entity/Q1")),
    coord := some (str ("Point(1 2)")), geoShapeUrl := none }

/-- Fixture: a binding row with no `coord` key. -/
def bindNoCoord : Binding :=
  { itemLabel := some (str ("B")), item := some (str ("http://www.wikidata.org/entity/Q64")),
    coord := none, geoShapeUrl := none }

/-- Fixture: a second valid point binding row. -/
def bindC : Binding :=
  { itemLabel := some (str ("C")), item := some (str ("http://www.wikidata.org/entity/Q3")),
    coord := some (str ("Point(3 4)")), geoShapeUrl := none }

/-- Fixture: a query result with one valid row. -/
def dataA : QueryResult := { results := { bindings := [bindA] } }

/-- Fixture: a query result with three rows whose second lacks `coord`. -/
def dataRows3 : QueryResult := { results := { bindings := [bindA, bindNoCoord, bindC] } }

/-- Fixture: a query result with no binding rows. -/
def dataEmpty : QueryResult := { results := { bindings := [] } }

/-- Fixture: a create-save request (no id). -/
def reqNew : SaveRequest :=
  { id := none, config := cfgPt, name := str ("n"), description := str ("d"),
    prompt_template := str ("p"), sub_prompt_template := str ("") }

/-- Fixture: an update-save request against entry id `x`. -/
def reqUpd : SaveRequest := { reqNew with id := some (str ("x")) }

/-- Fixture: a stored metadata entry with id `x`. -/
def entryX : DatasetEntry :=
  { id := str ("x"), name := str ("N"), description := str ("D"), type := str ("point"),
    filename := str ("f.json"), prompt_template := str ("P"), sub_prompt_template := str (""),
    config := cfgPt, data_keys := [] }

theorem strReplaceFuel_irrel (old new : Str) :
    ∀ (f1 f2 : Nat) (s : Str), s.length ≤ f1 → s.length ≤ f2 →
      strReplaceFuel old new f1 s = strReplaceFuel old new f2 s := by
  intro f1
  induction f1 with
  | zero =>
    intro f2 s h1 h2
    have : s = [] := List.length_eq_zero.mp (by omega)
    subst this
    cases f2 <;> rfl
  | succ f1' ih =>
    intro f2 s h1 h2
    cases s with
    | nil => cases f2 <;> rfl
    | cons c rest =>
      cases f2 with
      | zero => simp at h2
      | succ f2' =>
        rw [strReplaceFuel, strReplaceFuel]
        simp only [List.length_cons] at h1 h2
        by_cases hc : (old.isPrefixOf (c :: rest) && !old.isEmpty) = true
        · rw [if_pos hc, if_pos hc]
          have hd : (rest.drop (old.length - 1)).length ≤ rest.length := by
            simp [List.length_drop]
          rw [ih f2' (rest.drop (old.length - 1)) (by omega) (by omega)]
        · rw [if_neg hc, if_neg hc]
          rw [ih f2' rest (by omega) (by omega)]

theorem strReplace_nil (old new : Str) : strReplace old new [] = [] := rfl

theorem strReplace_cons (old new : Str) (c : Char) (rest : Str) :
    strReplace old new (c :: rest) =
      if old.isPrefixOf (c :: rest) && !old.isEmpty then
        new ++ strReplace old new (rest.drop (old.length - 1))
      else
        c :: strReplace old new rest := by
  unfold strReplace
  rw [show (c :: rest).length = rest.length + 1 from rfl, strReplaceFuel]
  by_cases hc : (old.isPrefixOf (c :: rest) && !old.isEmpty) = true
  · rw [if_pos hc, if_pos hc]
    rw [strReplaceFuel_irrel old new rest.length (rest.drop (old.length - 1)).length
      (rest.drop (old.length - 1)) (by simp [List.length_drop]) (le_refl _)]
  · rw [if_neg hc, if_neg hc]

theorem isPrefixOf_self_append (p t : Str) : p.isPrefixOf (p ++ t) = true := by
  induction p with
  | nil => simp [List.isPrefixOf]
  | cons c cs ih => simp [List.isPrefixOf, ih]

theorem isPrefixOf_iff_append (p z : Str) :
    p.isPrefixOf z = true ↔ ∃ v, z = p ++ v := by
  induction p generalizing z with
  | nil => simp [List.isPrefixOf]
  | cons c cs ih =>
    cases z with
    | nil => simp [List.isPrefixOf]
    | cons d rest =>
      simp only [List.isPrefixOf, Bool.and_eq_true, beq_iff_eq, ih, List.cons_append]
      constructor
      · rintro ⟨rfl, v, rfl⟩
        exact ⟨v, rfl⟩
      · rintro ⟨v, h⟩
        obtain ⟨rfl, rfl⟩ := List.cons.injEq .. ▸ h
        exact ⟨rfl, v, rfl⟩

theorem strReplace_append_self (o : Char) (os new t : Str) :
    strReplace (o :: os) new ((o :: os) ++ t) = new ++ strReplace (o :: os) new t := by
  rw [List.cons_append, strReplace_cons]
  have hpre : (o :: os).isPrefixOf (o :: (os ++ t)) = true := by
    exact isPrefixOf_self_append (o :: os) t
  rw [if_pos (by simp [hpre])]
  simp [List.drop_left]

theorem strReplace_not_head (o : Char) (os new t : Str) (h : ∀ x ∈ t, x ≠ o) :
    strReplace (o :: os) new t = t := by
  induction t with
  | nil => exact strReplace_nil _ _
  | cons c rest ih =>
    rw [strReplace_cons]
    have hco : ¬(o = c) := fun he => h c (by simp) (he ▸ rfl)
    rw [if_neg]
    · rw [ih (fun x hx => h x (by simp [hx]))]
    · simp [List.isPrefixOf, hco]

theorem strReplace_single (ch : Char) (t : Str) :
    strReplace [ch] [] t = t.filter (fun c => decide (c ≠ ch)) := by
  induction t with
  | nil => simp [strReplace_nil]
  | cons c rest ih =>
    rw [strReplace_cons]
    by_cases hc : ch = c
    · subst hc
      rw [if_pos (by simp [List.isPrefixOf])]
      simpa using ih
    · rw [if_neg (by simp [List.isPrefixOf, hc])]
      simp [List.filter_cons, Ne.symm hc, ih]

theorem splitWhen_ne_nil (p : Char → Bool) (s : Str) : splitWhen p s ≠ [] := by
  cases s with
  | nil => simp [splitWhen]
  | cons c rest =>
    rw [splitWhen]
    by_cases h : p c = true
    · simp [h]
    · simp only [h]
      rw [if_neg (by simp [h])]
      cases splitWhen p rest <;> simp

theorem splitWhen_append_no_sep (p : Char → Bool) (a s : Str)
    (ha : ∀ c ∈ a, p c = false) :
    splitWhen p (a ++ s) = (splitWhen p s).modifyHead (fun t => a ++ t) := by
  induction a with
  | nil =>
    cases hs : splitWhen p s with
    | nil => exact absurd hs (splitWhen_ne_nil p s)
    | cons t ts => simp [hs]
  | cons c a' ih =>
    have hc : p c = false := ha c (by simp)
    rw [List.cons_append, splitWhen]
    rw [if_neg (by simp [hc])]
    rw [ih (fun x hx => ha x (by simp [hx]))]
    cases hs : splitWhen p s with
    | nil => exact absurd hs (splitWhen_ne_nil p s)
    | cons t ts => simp

theorem splitWhen_no_sep (p : Char → Bool) (a : Str) (ha : ∀ c ∈ a, p c = false) :
    splitWhen p a = [a] := by
  have := splitWhen_append_no_sep p a [] ha
  simpa [splitWhen] using this

theorem splitWs_pair (a b : Str) (hna : a ≠ []) (hnb : b ≠ [])
    (ha : ∀ c ∈ a, c.isWhitespace = false) (hb : ∀ c ∈ b, c.isWhitespace = false) :
    splitWs (a ++ ' ' :: b) = [a, b] := by
  unfold splitWs
  rw [splitWhen_append_no_sep _ _ _ ha]
  rw [show splitWhen (fun c => c.isWhitespace) (' ' :: b) =
      [] :: splitWhen (fun c => c.isWhitespace) b from by rw [splitWhen]; simp]
  rw [splitWhen_no_sep _ b hb]
  simp [hna, hnb]

theorem parseFloat_nil : parseFloat [] = none := rfl

theorem parseFloat_ne_nil {s : Str} {q : ℚ} (h : parseFloat s = some q) : s ≠ [] := by
  rintro rfl
  rw [parseFloat_nil] at h
  exact Option.noConfusion h

theorem numChar_facts {c : Char} (h : numChar c = true) :
    c ≠ 'P' ∧ c ≠ ')' ∧ c.isWhitespace = false := by
  simp only [numChar, Bool.or_eq_true, decide_eq_true_eq] at h
  rcases h with ((hd | h1) | h2) | h3
  · refine ⟨?_, ?_, ?_⟩
    · rintro rfl; exact absurd hd (by decide)
    · rintro rfl; exact absurd hd (by decide)
    · by_contra hw
      rw [Bool.not_eq_false] at hw
      simp only [Char.isWhitespace, Bool.or_eq_true, decide_eq_true_eq] at hw
      rcases hw with ((rfl | rfl) | rfl) | rfl <;> exact absurd hd (by decide)
  · subst h1; exact ⟨by decide, by decide, by decide⟩
  · subst h2; exact ⟨by decide, by decide, by decide⟩
  · subst h3; exact ⟨by decide, by decide, by decide⟩

theorem parseCoord_numeric (a b : Str) (qa qb : ℚ)
    (hna : ∀ c ∈ a, numChar c = true) (hnb : ∀ c ∈ b, numChar c = true)
    (hpa : parseFloat a = some qa) (hpb : parseFloat b = some qb) :
    parseCoord (str ("Point(") ++ a ++ str (" ") ++ b ++ str (")")) = some ((qa, qb)) := by
  have hsh : str ("Point(") ++ a ++ str (" ") ++ b ++ str (")") =
      str ("Point(") ++ (a ++ ' ' :: (b ++ [')'])) := by simp [str]
  rw [hsh]
  have hinner : ∀ x ∈ a ++ ' ' :: (b ++ [')']), x ≠ 'P' := by
    intro x hx
    simp only [List.mem_append, List.mem_cons, List.mem_singleton, List.not_mem_nil,
      or_false] at hx
    rcases hx with hxa | rfl | hxb | rfl
    · exact (numChar_facts (hna x hxa)).1
    · decide
    · exact (numChar_facts (hnb x hxb)).1
    · decide
  have h1 : strReplace (str ("Point(")) [] (str ("Point(") ++ (a ++ ' ' :: (b ++ [')']))) =
      a ++ ' ' :: (b ++ [')']) := by
    have e : str ("Point(") = 'P' :: str ("oint(") := rfl
    rw [e, strReplace_append_self, strReplace_not_head _ _ _ _ hinner, List.nil_append]
  have fa : a.filter (fun c => !decide (c = ')')) = a :=
    List.filter_eq_self.mpr (fun x hx => by simpa using (numChar_facts (hna x hx)).2.1)
  have fb : b.filter (fun c => !decide (c = ')')) = b :=
    List.filter_eq_self.mpr (fun x hx => by simpa using (numChar_facts (hnb x hx)).2.1)
  have h2 : strReplace (str (")")) [] (a ++ ' ' :: (b ++ [')'])) = a ++ ' ' :: b := by
    have e : str (")") = [')'] := rfl
    rw [e, strReplace_single]
    simp [List.filter_append, List.filter_cons, fa, fb]
  have hws : splitWs (a ++ ' ' :: b) = [a, b] :=
    splitWs_pair a b (parseFloat_ne_nil hpa) (parseFloat_ne_nil hpb)
      (fun c hc => (numChar_facts (hna c hc)).2.2)
      (fun c hc => (numChar_facts (hnb c hc)).2.2)
  simp only [parseCoord, h1, h2, hws, hpa, hpb]

theorem containsSub_iff (pat s : Str) :
    containsSub pat s = true ↔ ∃ u v, s = u ++ pat ++ v := by
  induction s with
  | nil =>
    rw [containsSub]
    simp only [List.isEmpty_iff]
    constructor
    · rintro rfl
      exact ⟨[], [], rfl⟩
    · rintro ⟨u, v, h⟩
      have hl := congrArg List.length h
      simp only [List.length_nil, List.length_append] at hl
      have : pat.length = 0 := by omega
      exact List.length_eq_zero.mp this
  | cons c rest ih =>
    rw [containsSub]
    simp only [Bool.or_eq_true, isPrefixOf_iff_append, ih]
    constructor
    · rintro (⟨v, hv⟩ | ⟨u, v, huv⟩)
      · exact ⟨[], v, by simp [hv]⟩
      · exact ⟨c :: u, v, by simp [huv]⟩
    · rintro ⟨u, v, huv⟩
      cases u with
      | nil =>
        left
        exact ⟨v, by simpa using huv⟩
      | cons d u' =>
        right
        rw [List.cons_append, List.cons_append] at huv
        obtain ⟨-, h2⟩ := List.cons.inj huv
        exact ⟨u', v, h2⟩

theorem containsSub_append_right {pat t : Str} (h : containsSub pat t = true) (s : Str) :
    containsSub pat (s ++ t) = true := by
  rw [containsSub_iff] at h ⊢
  obtain ⟨u, v, rfl⟩ := h
  exact ⟨s ++ u, v, by simp⟩

theorem containsSub_append_left {pat s : Str} (h : containsSub pat s = true) (t : Str) :
    containsSub pat (s ++ t) = true := by
  rw [containsSub_iff] at h ⊢
  obtain ⟨u, v, rfl⟩ := h
  exact ⟨u, v ++ t, by simp⟩

theorem containsSub_self_append (pat v : Str) : containsSub pat (pat ++ v) = true := by
  rw [containsSub_iff]
  exact ⟨[], v, by simp⟩

theorem containsSub_trans {inner pat s : Str} (h1 : containsSub inner pat = true)
    (h2 : containsSub pat s = true) : containsSub inner s = true := by
  rw [containsSub_iff] at h1 h2 ⊢
  obtain ⟨u1, v1, rfl⟩ := h1
  obtain ⟨u2, v2, rfl⟩ := h2
  exact ⟨u2 ++ u1, v1 ++ v2, by simp⟩

theorem mem_of_containsSub_head {c : Char} {p s : Str} (h : containsSub (c :: p) s = true) :
    c ∈ s := by
  rw [containsSub_iff] at h
  obtain ⟨u, v, rfl⟩ := h
  simp

theorem goodFor_nil (x : Char) : goodFor x [] := ⟨rfl, by simp⟩

theorem goodFor_no_question {x : Char} {s : Str} (h : noQuestion s) : goodFor x s := by
  constructor
  · by_contra hc
    rw [Bool.not_eq_false] at hc
    exact h '?' (mem_of_containsSub_head hc) rfl
  · intro hl
    exact h '?' (List.mem_of_getLast?_eq_some hl) rfl

theorem goodFor_append {x : Char} {s t : Str} (hs : goodFor x s) (ht : goodFor x t) :
    goodFor x (s ++ t) := by
  obtain ⟨hs1, hs2⟩ := hs
  obtain ⟨ht1, ht2⟩ := ht
  constructor
  · by_contra hc
    rw [Bool.not_eq_false, containsSub_iff] at hc
    obtain ⟨u, v, huv⟩ := hc
    rw [List.append_eq_append_iff] at huv
    rcases huv with ⟨a2, ha2, hta⟩ | ⟨c2, hsc, hvc⟩
    · -- u ++ ['?', x] = s ++ a2 and t = a2 ++ v
      rw [List.append_eq_append_iff] at ha2
      rcases ha2 with ⟨b2, hsb, hqb⟩ | ⟨d2, hud, had⟩
      · -- s = u ++ b2 and ['?', x] = b2 ++ a2
        cases b2 with
        | nil =>
          have hta' : t = ['?', x] ++ v := by
            simp only [List.nil_append] at hqb
            rw [hta, ← hqb]
          have : containsSub ['?', x] t = true := by
            rw [hta']
            exact containsSub_self_append _ _
          rw [this] at ht1
          exact Bool.noConfusion ht1
        | cons e b2' =>
          cases b2' with
          | nil =>
            obtain ⟨he, ha⟩ := List.cons.inj hqb
            have hs' : s = u ++ ['?'] := by rw [hsb, ← he]
            have : s.getLast? = some '?' := by
              rw [hs']
              exact List.getLast?_concat u
            exact hs2 this
          | cons f b2'' =>
            obtain ⟨he, h2⟩ := List.cons.inj hqb
            obtain ⟨hf, h3⟩ := List.cons.inj h2
            have hb0 : b2'' = [] ∧ a2 = [] := by
              constructor
              · exact (List.append_eq_nil.mp h3.symm).1
              · exact (List.append_eq_nil.mp h3.symm).2
            have hs' : s = u ++ ['?', x] := by
              rw [hsb, ← he, ← hf, hb0.1]
            have : containsSub ['?', x] s = true := by
              rw [containsSub_iff]
              exact ⟨u, [], by simp [hs']⟩
            rw [this] at hs1
            exact Bool.noConfusion hs1
      · -- u = s ++ d2 and a2 = d2 ++ ['?', x]
        have : containsSub ['?', x] t = true := by
          rw [containsSub_iff]
          exact ⟨d2, v, by rw [hta, had]⟩
        rw [this] at ht1
        exact Bool.noConfusion ht1
    · -- s = (u ++ ['?', x]) ++ c2
      have : containsSub ['?', x] s = true := by
        rw [containsSub_iff]
        exact ⟨u, c2, hsc⟩
      rw [this] at hs1
      exact Bool.noConfusion hs1
  · rw [List.getLast?_append]
    cases hot : t.getLast? with
    | none =>
      simpa using hs2
    | some y =>
      simp only [Option.or_some]
      intro he
      exact ht2 (hot.trans he)

theorem goodFor_flatten {x : Char} {L : List Str} (h : ∀ s ∈ L, goodFor x s) :
    goodFor x L.flatten := by
  induction L with
  | nil => exact goodFor_nil x
  | cons s L' ih =>
    rw [List.flatten_cons]
    exact goodFor_append (h s (by simp)) (ih (fun t ht => h t (by simp [ht])))

theorem goodFor_ite {x : Char} (c : Prop) [Decidable c] {s t : Str}
    (hs : goodFor x s) (ht : goodFor x t) : goodFor x (if c then s else t) := by
  split
  · exact hs
  · exact ht

theorem natToStrFuel_irrel : ∀ (f1 f2 n : Nat), n ≤ f1 → n ≤ f2 →
    natToStrFuel f1 n = natToStrFuel f2 n := by
  intro f1
  induction f1 with
  | zero =>
    intro f2 n h1 h2
    have : n = 0 := by omega
    subst this
    cases f2 with
    | zero => rfl
    | succ f2' => simp [natToStrFuel]
  | succ f1' ih =>
    intro f2 n h1 h2
    by_cases hn : n < 10
    · cases f2 with
      | zero =>
        have : n = 0 := by omega
        subst this
        simp [natToStrFuel]
      | succ f2' => simp [natToStrFuel, hn]
    · cases f2 with
      | zero => omega
      | succ f2' =>
        rw [natToStrFuel, natToStrFuel, if_neg hn, if_neg hn]
        have hd : n / 10 < n := Nat.div_lt_self (by omega) (by omega)
        rw [ih f2' (n / 10) (by omega) (by omega)]

theorem natToStr_eq (n : Nat) :
    natToStr n =
      if n < 10 then [Nat.digitChar n]
      else natToStr (n / 10) ++ [Nat.digitChar (n % 10)] := by
  unfold natToStr
  by_cases hn : n < 10
  · rw [if_pos hn]
    cases n with
    | zero => rfl
    | succ k => rw [natToStrFuel, if_pos hn]
  · rw [if_neg hn]
    cases n with
    | zero => omega
    | succ k =>
      rw [natToStrFuel, if_neg hn]
      have hd : (k + 1) / 10 < k + 1 := Nat.div_lt_self (by omega) (by omega)
      rw [natToStrFuel_irrel k ((k + 1) / 10) ((k + 1) / 10) (by omega) (le_refl _)]

theorem digitChar_isDigit {m : Nat} (h : m < 10) : (Nat.digitChar m).isDigit = true := by
  interval_cases m <;> decide

theorem natToStr_all_digit (n : Nat) : ∀ c ∈ natToStr n, c.isDigit = true := by
  induction n using Nat.strong_induction_on with
  | _ n ih =>
    by_cases h : n < 10
    · rw [natToStr_eq, if_pos h]
      intro c hc
      simp only [List.mem_singleton] at hc
      subst hc
      exact digitChar_isDigit h
    · rw [natToStr_eq, if_neg h]
      intro c hc
      rw [List.mem_append] at hc
      rcases hc with h1 | h2
      · exact ih (n / 10) (Nat.div_lt_self (by omega) (by omega)) c h1
      · simp only [List.mem_singleton] at h2
        subst h2
        exact digitChar_isDigit (Nat.mod_lt _ (by omega))

theorem digitChar_inj : ∀ m < 10, ∀ n < 10, Nat.digitChar m = Nat.digitChar n → m = n := by
  decide

theorem natToStr_ne_nil (n : Nat) : natToStr n ≠ [] := by
  by_cases h : n < 10
  · rw [natToStr_eq, if_pos h]
    simp
  · rw [natToStr_eq, if_neg h]
    simp

theorem natToStr_inj : ∀ m n : Nat, natToStr m = natToStr n → m = n := by
  intro m
  induction m using Nat.strong_induction_on with
  | _ m ih =>
    intro n h
    by_cases hm : m < 10 <;> by_cases hn : n < 10
    · have em : natToStr m = [Nat.digitChar m] := by rw [natToStr_eq, if_pos hm]
      have en : natToStr n = [Nat.digitChar n] := by rw [natToStr_eq, if_pos hn]
      rw [em, en] at h
      obtain ⟨h1, -⟩ := List.cons.inj h
      exact digitChar_inj m hm n hn h1
    · have em : natToStr m = [Nat.digitChar m] := by rw [natToStr_eq, if_pos hm]
      have en : natToStr n = natToStr (n / 10) ++ [Nat.digitChar (n % 10)] := by
        rw [natToStr_eq, if_neg hn]
      rw [em, en] at h
      have hl := congrArg List.length h
      simp only [List.length_singleton, List.length_append] at hl
      exact absurd (List.length_eq_zero.mp (by omega)) (natToStr_ne_nil (n / 10))
    · have em : natToStr m = natToStr (m / 10) ++ [Nat.digitChar (m % 10)] := by
        rw [natToStr_eq, if_neg hm]
      have en : natToStr n = [Nat.digitChar n] := by rw [natToStr_eq, if_pos hn]
      rw [em, en] at h
      have hl := congrArg List.length h
      simp only [List.length_singleton, List.length_append] at hl
      exact absurd (List.length_eq_zero.mp (by omega)) (natToStr_ne_nil (m / 10))
    · have em : natToStr m = natToStr (m / 10) ++ [Nat.digitChar (m % 10)] := by
        rw [natToStr_eq, if_neg hm]
      have en : natToStr n = natToStr (n / 10) ++ [Nat.digitChar (n % 10)] := by
        rw [natToStr_eq, if_neg hn]
      rw [em, en] at h
      obtain ⟨h1, h2⟩ := List.append_inj' h (by simp)
      have e1 : m / 10 = n / 10 := ih (m / 10) (Nat.div_lt_self (by omega) (by omega)) _ h1
      obtain ⟨h3, -⟩ := List.cons.inj h2
      have e2 : m % 10 = n % 10 :=
        digitChar_inj _ (Nat.mod_lt _ (by omega)) _ (Nat.mod_lt _ (by omega)) h3
      omega

theorem no_question_of_digits {s : Str} (h : ∀ c ∈ s, c.isDigit = true) : noQuestion s := by
  intro c hc
  rintro rfl
  exact absurd (h '?' hc) (by decide)

theorem goodFor_natToStr (x : Char) (n : Nat) : goodFor x (natToStr n) :=
  goodFor_no_question (no_question_of_digits (natToStr_all_digit n))

theorem noQuestion_intToStr (i : Int) : noQuestion (intToStr i) := by
  unfold intToStr
  split
  · intro c hc
    rcases List.mem_cons.mp hc with rfl | hm
    · decide
    · exact no_question_of_digits (natToStr_all_digit _) c hm
  · exact no_question_of_digits (natToStr_all_digit _)

theorem goodFor_intToStr (x : Char) (i : Int) : goodFor x (intToStr i) :=
  goodFor_no_question (noQuestion_intToStr i)

theorem goodFor_constraintClause {x : Char} (c : Constraint)
    (hp : noQuestion c.property) (hv : noQuestion c.value)
    (h1 : goodFor x (str ("  FILTER NOT EXISTS \x7b ?item wdt:")))
    (h2 : goodFor x (str ("  ?item wdt:")))
    (h3 : goodFor x (str (" wd:")))
    (h4 : goodFor x (str (". \x7d\n")))
    (h5 : goodFor x (str (".\n"))) :
    goodFor x (constraintClause c) := by
  unfold constraintClause
  split
  · refine goodFor_append (goodFor_append (goodFor_append (goodFor_append h1 ?_) h3) ?_) h4
    · exact goodFor_no_question (fun ch hc => hp ch (List.drop_subset 1 c.property hc))
    · exact goodFor_no_question hv
  · refine goodFor_append (goodFor_append (goodFor_append (goodFor_append h2 ?_) h3) ?_) h5
    · exact goodFor_no_question hp
    · exact goodFor_no_question hv

theorem goodFor_build_query_point (config : DatasetConfig)
    (hpt : config.dataset_type = str ("point"))
    (hit : noQuestion config.item_type)
    (hcs : ∀ c ∈ config.constraints, noQuestion c.property ∧ noQuestion c.value) :
    goodFor 'g' (build_query config) := by
  unfold build_query
  rw [hpt]
  refine goodFor_append (goodFor_append (goodFor_append (goodFor_append (goodFor_append
      (goodFor_append (goodFor_append (goodFor_append (goodFor_append (goodFor_append
      (goodFor_append (goodFor_append (goodFor_append ?_ ?_) ?_) ?_) ?_) ?_) ?_) ?_) ?_)
      ?_) ?_) ?_) ?_) ?_
  · exact ⟨by decide, by decide⟩
  · rw [if_pos rfl]
    exact ⟨by decide, by decide⟩
  · exact ⟨by decide, by decide⟩
  · exact ⟨by decide, by decide⟩
  · refine goodFor_append (goodFor_append ?_ ?_) ?_
    · exact ⟨by decide, by decide⟩
    · exact goodFor_no_question hit
    · exact ⟨by decide, by decide⟩
  · refine goodFor_flatten ?_
    intro s hs
    obtain ⟨c, hc, rfl⟩ := List.mem_map.mp hs
    exact goodFor_constraintClause c (hcs c hc).1 (hcs c hc).2
      ⟨by decide, by decide⟩ ⟨by decide, by decide⟩ ⟨by decide, by decide⟩
      ⟨by decide, by decide⟩ ⟨by decide, by decide⟩
  · refine goodFor_ite _ ?_ (goodFor_nil _)
    refine goodFor_append (goodFor_append ?_ ?_) ?_
    · exact ⟨by decide, by decide⟩
    · exact goodFor_intToStr _ _
    · exact ⟨by decide, by decide⟩
  · exact goodFor_ite _ ⟨by decide, by decide⟩ (goodFor_nil _)
  · rw [if_pos rfl]
    exact ⟨by decide, by decide⟩
  · exact ⟨by decide, by decide⟩
  · exact ⟨by decide, by decide⟩
  · exact ⟨by decide, by decide⟩
  · exact ⟨by decide, by decide⟩
  · exact goodFor_append ⟨by decide, by decide⟩ (goodFor_intToStr _ _)

theorem goodFor_build_query_polygon (config : DatasetConfig)
    (hpt : config.dataset_type = str ("polygon"))
    (hit : noQuestion config.item_type)
    (hcs : ∀ c ∈ config.constraints, noQuestion c.property ∧ noQuestion c.value) :
    goodFor 'c' (build_query config) := by
  unfold build_query
  rw [hpt]
  refine goodFor_append (goodFor_append (goodFor_append (goodFor_append (goodFor_append
      (goodFor_append (goodFor_append (goodFor_append (goodFor_append (goodFor_append
      (goodFor_append (goodFor_append (goodFor_append ?_ ?_) ?_) ?_) ?_) ?_) ?_) ?_) ?_)
      ?_) ?_) ?_) ?_) ?_
  · exact ⟨by decide, by decide⟩
  · rw [if_neg (by decide), if_pos rfl]
    exact ⟨by decide, by decide⟩
  · exact ⟨by decide, by decide⟩
  · exact ⟨by decide, by decide⟩
  · refine goodFor_append (goodFor_append ?_ ?_) ?_
    · exact ⟨by decide, by decide⟩
    · exact goodFor_no_question hit
    · exact ⟨by decide, by decide⟩
  · refine goodFor_flatten ?_
    intro s hs
    obtain ⟨c, hc, rfl⟩ := List.mem_map.mp hs
    exact goodFor_constraintClause c (hcs c hc).1 (hcs c hc).2
      ⟨by decide, by decide⟩ ⟨by decide, by decide⟩ ⟨by decide, by decide⟩
      ⟨by decide, by decide⟩ ⟨by decide, by decide⟩
  · refine goodFor_ite _ ?_ (goodFor_nil _)
    refine goodFor_append (goodFor_append ?_ ?_) ?_
    · exact ⟨by decide, by decide⟩
    · exact goodFor_intToStr _ _
    · exact ⟨by decide, by decide⟩
  · exact goodFor_ite _ ⟨by decide, by decide⟩ (goodFor_nil _)
  · rw [if_neg (by decide), if_pos rfl]
    exact ⟨by decide, by decide⟩
  · exact ⟨by decide, by decide⟩
  · exact ⟨by decide, by decide⟩
  · exact ⟨by decide, by decide⟩
  · exact ⟨by decide, by decide⟩
  · exact goodFor_append ⟨by decide, by decide⟩ (goodFor_intToStr _ _)

theorem containsSub_self (p : Str) : containsSub p p = true := by
  have h := containsSub_self_append p []
  simpa using h

theorem not_containsSub_of_seed {seed pat s : Str} (hseed : containsSub seed pat = true)
    (hs : containsSub seed s = false) : containsSub pat s = false := by
  by_contra hc
  rw [Bool.not_eq_false] at hc
  rw [containsSub_trans hseed hc] at hs
  exact Bool.noConfusion hs

theorem build_query_point_has_col (config : DatasetConfig)
    (hpt : config.dataset_type = str ("point")) :
    containsSub (str ("?coord ")) (build_query config) = true := by
  unfold build_query
  rw [hpt, if_pos rfl, if_pos rfl]
  apply containsSub_append_left
  apply containsSub_append_left
  apply containsSub_append_left
  apply containsSub_append_left
  apply containsSub_append_left
  apply containsSub_append_left
  apply containsSub_append_left
  apply containsSub_append_left
  apply containsSub_append_left
  apply containsSub_append_left
  apply containsSub_append_left
  apply containsSub_append_left
  exact containsSub_append_right (containsSub_self _) _

theorem build_query_point_has_triple (config : DatasetConfig)
    (hpt : config.dataset_type = str ("point")) :
    containsSub (str ("  ?item wdt:P625 ?coord.\n")) (build_query config) = true := by
  unfold build_query
  rw [hpt, if_pos rfl, if_pos rfl]
  apply containsSub_append_left
  apply containsSub_append_left
  apply containsSub_append_left
  apply containsSub_append_left
  apply containsSub_append_left
  exact containsSub_append_right (containsSub_self _) _

theorem build_query_polygon_has_col (config : DatasetConfig)
    (hpt : config.dataset_type = str ("polygon")) :
    containsSub (str ("?geoShapeUrl ")) (build_query config) = true := by
  unfold build_query
  rw [hpt, if_neg (show ¬(str ("polygon") = str ("point")) from by decide), if_pos rfl,
    if_neg (show ¬(str ("polygon") = str ("point")) from by decide), if_pos rfl]
  apply containsSub_append_left
  apply containsSub_append_left
  apply containsSub_append_left
  apply containsSub_append_left
  apply containsSub_append_left
  apply containsSub_append_left
  apply containsSub_append_left
  apply containsSub_append_left
  apply containsSub_append_left
  apply containsSub_append_left
  apply containsSub_append_left
  apply containsSub_append_left
  exact containsSub_append_right (containsSub_self _) _

theorem build_query_polygon_has_triple (config : DatasetConfig)
    (hpt : config.dataset_type = str ("polygon")) :
    containsSub (str ("  ?item wdt:P3896 ?geoShapeUrl.\n")) (build_query config) = true := by
  unfold build_query
  rw [hpt, if_neg (show ¬(str ("polygon") = str ("point")) from by decide), if_pos rfl,
    if_neg (show ¬(str ("polygon") = str ("point")) from by decide), if_pos rfl]
  apply containsSub_append_left
  apply containsSub_append_left
  apply containsSub_append_left
  apply containsSub_append_left
  apply containsSub_append_left
  exact containsSub_append_right (containsSub_self _) _

theorem lookupA_writeA {β : Type} (l : List (Str × β)) (k : Str) (v : β) :
    lookupA (writeA l k v) k = some v := by
  induction l with
  | nil => simp [writeA, lookupA]
  | cons p rest ih =>
    rw [writeA]
    by_cases h : p.1 = k
    · rw [if_pos h, lookupA]
      simp
    · rw [if_neg h, lookupA, if_neg h]
      exact ih

theorem find?_first {l : List DatasetEntry} {i : Nat} {ex : DatasetEntry} {rid : Str}
    (h4 : l[i]? = some ex) (h5 : ex.id = rid)
    (h6 : ∀ j e', j < i → l[j]? = some e' → e'.id ≠ rid) :
    l.find? (fun d => decide (d.id = rid)) = some ex := by
  induction l generalizing i with
  | nil => simp at h4
  | cons d rest ih =>
    cases i with
    | zero =>
      simp only [List.getElem?_cons_zero, Option.some.injEq] at h4
      subst h4
      rw [List.find?_cons_of_pos _ (by simp [h5])]
    | succ i' =>
      have hd : d.id ≠ rid := h6 0 d (by omega) (by simp)
      rw [List.find?_cons_of_neg _ (by simp [hd])]
      exact ih (by simpa using h4) (fun j e' hj he => h6 (j + 1) e' (by omega) (by simpa using he))

theorem replaceFirst_first (ne : DatasetEntry) {rid : Str} {l : List DatasetEntry} {i : Nat}
    {ex : DatasetEntry} (h4 : l[i]? = some ex) (h5 : ex.id = rid)
    (h6 : ∀ j e', j < i → l[j]? = some e' → e'.id ≠ rid) :
    replaceFirst rid ne l = l.take i ++ ne :: l.drop (i + 1) := by
  induction l generalizing i with
  | nil => simp at h4
  | cons d rest ih =>
    cases i with
    | zero =>
      simp only [List.getElem?_cons_zero, Option.some.injEq] at h4
      subst h4
      rw [replaceFirst, if_pos h5]
      simp
    | succ i' =>
      have hd : d.id ≠ rid := h6 0 d (by omega) (by simp)
      rw [replaceFirst, if_neg hd]
      rw [ih (by simpa using h4) (fun j e' hj he => h6 (j + 1) e' (by omega) (by simpa using he))]
      simp

theorem parseRows_eq_filterMap (t : Str) (bs : List Binding) :
    parseRows t bs = bs.filterMap (parseRow t) := by
  induction bs with
  | nil => simp [parseRows]
  | cons b rest ih =>
    simp only [parseRows]
    cases h : parseRow t b <;> simp [h, ih, List.filterMap_cons]

/-- Claim C1: a save request whose fetched query result normalizes to zero
records fails with the HTTP 400 empty-result error and leaves the dataset
store completely untouched: no metadata document change and no data file
write. -/
theorem save_empty_result_rejected (req : SaveRequest) (d : QueryResult) (now : Nat)
    (st : StoreState) (h : parse_results d req.config.dataset_type = []) :
    api_save req (some d) now st =
      (st, .error (.httpError 400 (str ("No items found to save")))) := by
  unfold api_save
  simp [h]

/-- Witness for claim C1 at a concrete empty query result. -/
theorem save_empty_result_rejected_witness :
    parse_results dataEmpty reqNew.config.dataset_type = [] ∧
    api_save reqNew (some dataEmpty) 0 ({ datasetsFile := none, files := [] } : StoreState) =
      (({ datasetsFile := none, files := [] } : StoreState),
        .error (.httpError 400 (str ("No items found to save")))) :=
  ⟨by decide, save_empty_result_rejected reqNew dataEmpty 0 _ (by decide)⟩

/-- Claim C4: a delete request whose id matches no entry of the store (the
store document being absent, or present and listing no entry with that id)
fails with HTTP 404 and leaves the store document and all data files
unchanged. -/
theorem delete_missing_id_404 (req : DeleteRequest) (st : StoreState)
    (h : st.datasetsFile = none ∨
      ∃ l, st.datasetsFile = some (some l) ∧ ∀ d ∈ l, d.id ≠ req.id) :
    (api_delete req st).1 = st ∧
      ∃ msg, (api_delete req st).2 = .error (.httpError 404 msg) := by
  rcases h with h0 | ⟨l, hl, hall⟩
  · unfold api_delete
    simp only [h0]
    exact ⟨trivial, _, rfl⟩
  · unfold api_delete
    simp only [hl]
    have hfind : l.find? (fun d => decide (d.id = req.id)) = none := by
      rw [List.find?_eq_none]
      intro x hx
      simp [hall x hx]
    simp only [hfind]
    exact ⟨trivial, _, rfl⟩

/-- Witness for claim C4 at a concrete store. -/
theorem delete_missing_id_404_witness :
    (api_delete ({ id := str ("y") } : DeleteRequest)
        ({ datasetsFile := some (some [entryX]), files := [] } : StoreState)).1 =
      ({ datasetsFile := some (some [entryX]), files := [] } : StoreState) ∧
    ∃ msg,
      (api_delete ({ id := str ("y") } : DeleteRequest)
          ({ datasetsFile := some (some [entryX]), files := [] } : StoreState)).2 =
        .error (.httpError 404 msg) :=
  delete_missing_id_404 _ _ (Or.inr ⟨[entryX], rfl, by decide⟩)

/-- Claim C5: when `datasets.json` exists but holds invalid JSON, a create-save
does not fail: the parse error is swallowed, the store is treated as empty,
and the rewritten document holds exactly the one newly minted entry,
discarding whatever was persisted before. -/
theorem save_with_corrupt_store_resets (req : SaveRequest) (d : QueryResult) (now : Nat)
    (fs : List (Str × List Entry)) (hid : req.id = none)
    (h : parse_results d req.config.dataset_type ≠ []) :
    api_save req (some d) now ({ datasetsFile := some none, files := fs } : StoreState) =
      (({ datasetsFile :=
            some (some [mkNewEntry req (str ("custom_") ++ natToStr now)
              (str ("dataset_") ++ natToStr now ++ str (".json"))]),
          files := writeA fs (str ("dataset_") ++ natToStr now ++ str (".json"))
            (parse_results d req.config.dataset_type) } : StoreState),
        .ok { message := str ("Dataset saved successfully"),
              id := str ("custom_") ++ natToStr now }) := by
  unfold api_save
  simp [h, hid, loadDatasets, pyTruthy]

/-- Witness for claim C5 at a concrete corrupt store. -/
theorem save_with_corrupt_store_resets_witness :
    api_save reqNew (some dataA) 3 ({ datasetsFile := some none, files := [] } : StoreState) =
      (({ datasetsFile :=
            some (some [mkNewEntry reqNew (str ("custom_") ++ natToStr 3)
              (str ("dataset_") ++ natToStr 3 ++ str (".json"))]),
          files := writeA [] (str ("dataset_") ++ natToStr 3 ++ str (".json"))
            (parse_results dataA reqNew.config.dataset_type) } : StoreState),
        .ok { message := str ("Dataset saved successfully"),
              id := str ("custom_") ++ natToStr 3 }) :=
  save_with_corrupt_store_resets reqNew dataA 3 [] rfl (by
    intro hx
    have hlen : (parse_results dataA reqNew.config.dataset_type).length = 1 := rfl
    rw [hx] at hlen
    exact Nat.noConfusion hlen)

/-- Claim C2 counterexample: an entry whose id is the empty string exists in
the store and the request carries that entry_id, but Python's `if req.id:`
treats the empty string as falsy, so the save appends a fresh entry instead
of replacing in place: the store grows from 1 entry to 2. -/
theorem save_update_empty_id_cex :
    ((api_save { reqNew with id := some [] } (some dataA) 0
        ({ datasetsFile :=
             some (some [{ entryX with id := ([] : Str) }]),
           files := [] } : StoreState)).1.datasetsFile.map
      (fun d => d.map List.length)) = some (some 2) := by
  decide

/-- Claim C2 (amended): for every save request carrying a non-empty entry_id
that exists in the store, the save replaces the first entry with that id in
place: the response reports that id, the replacement sits at the same list
position with the same filename (whose file contents are overwritten with
the freshly parsed records), every other position is unchanged, and the
store length is unchanged. -/
theorem save_update_replaces_in_place (req : SaveRequest) (rid : Str) (d : QueryResult)
    (now : Nat) (st : StoreState) (datasets : List DatasetEntry) (i : Nat) (ex : DatasetEntry)
    (hid : req.id = some rid) (hne : rid ≠ [])
    (hdoc : st.datasetsFile = some (some datasets))
    (hp : parse_results d req.config.dataset_type ≠ [])
    (h4 : datasets[i]? = some ex) (h5 : ex.id = rid)
    (h6 : ∀ j e', j < i → datasets[j]? = some e' → e'.id ≠ rid) :
    (api_save req (some d) now st).2 =
        .ok { message := str ("Dataset saved successfully"), id := rid } ∧
    (api_save req (some d) now st).1.datasetsFile =
        some (some (datasets.take i ++ mkNewEntry req rid ex.filename :: datasets.drop (i + 1))) ∧
    (datasets.take i ++ mkNewEntry req rid ex.filename :: datasets.drop (i + 1)).length =
        datasets.length ∧
    (datasets.take i ++ mkNewEntry req rid ex.filename :: datasets.drop (i + 1))[i]? =
        some (mkNewEntry req rid ex.filename) ∧
    (∀ j, j ≠ i →
      (datasets.take i ++ mkNewEntry req rid ex.filename :: datasets.drop (i + 1))[j]? =
        datasets[j]?) ∧
    lookupA (api_save req (some d) now st).1.files ex.filename =
        some (parse_results d req.config.dataset_type) := by
  have hi : i < datasets.length := by
    by_contra hc
    push_neg at hc
    rw [List.getElem?_eq_none hc] at h4
    exact Option.noConfusion h4
  have hfind : datasets.find? (fun e => decide (e.id = rid)) = some ex := find?_first h4 h5 h6
  have hrepl := replaceFirst_first (mkNewEntry req rid ex.filename) h4 h5 h6
  have htlen : (datasets.take i).length = i := by
    simp [List.length_take]
    omega
  refine ⟨?_, ?_, ?_, ?_, ?_, ?_⟩
  · unfold api_save
    simp [hid, hp, hdoc, loadDatasets, pyTruthy, hne, hfind, hrepl]
  · unfold api_save
    simp [hid, hp, hdoc, loadDatasets, pyTruthy, hne, hfind, hrepl]
  · simp [List.length_take, List.length_drop]
    omega
  · rw [List.getElem?_append_right (by omega), htlen]
    simp
  · intro j hj
    rcases Nat.lt_or_ge j i with hlt | hge
    · rw [List.getElem?_append_left (by omega)]
      exact List.getElem?_take_of_lt hlt
    · have hgt : i < j := by omega
      rw [List.getElem?_append_right (by omega), htlen]
      have hsub : j - i = (j - i - 1) + 1 := by omega
      rw [hsub, List.getElem?_cons_succ, List.getElem?_drop]
      congr 1
      omega
  · unfold api_save
    simp [hid, hp, hdoc, loadDatasets, pyTruthy, hne, hfind, hrepl, lookupA_writeA]

/-- Witness for claim C2 (amended) at a concrete one-entry store. -/
theorem save_update_replaces_in_place_witness :
    (api_save reqUpd (some dataA) 5
        ({ datasetsFile := some (some [entryX]), files := [] } : StoreState)).2 =
      .ok { message := str ("Dataset saved successfully"), id := str ("x") } :=
  (save_update_replaces_in_place reqUpd (str ("x")) dataA 5
    ({ datasetsFile := some (some [entryX]), files := [] } : StoreState) [entryX] 0 entryX
    rfl (by decide) rfl
    (by
      intro hx
      have hlen : (parse_results dataA reqUpd.config.dataset_type).length = 1 := rfl
      rw [hx] at hlen
      exact Nat.noConfusion hlen)
    rfl rfl (fun j e' hj _ => absurd hj (by omega))).1

/-- Claim C3 counterexample: two create-saves that observe the same
`int(time.time())` value mint identical ids and identical filenames, so the
resulting two entries are not distinct (the second data file write also
overwrote the first). -/
theorem save_twice_same_second_cex :
    ((api_save reqNew (some dataA) 0
        (api_save reqNew (some dataA) 0
          ({ datasetsFile := none, files := [] } : StoreState)).1).1.datasetsFile.map
      (fun d => d.map (fun l => l.map DatasetEntry.id))) =
        some (some [str ("custom_0"), str ("custom_0")]) ∧
    ((api_save reqNew (some dataA) 0
        (api_save reqNew (some dataA) 0
          ({ datasetsFile := none, files := [] } : StoreState)).1).1.datasetsFile.map
      (fun d => d.map (fun l => l.map DatasetEntry.filename))) =
        some (some [str ("dataset_0.json"), str ("dataset_0.json")]) := by
  constructor <;> decide

/-- Claim C3 (amended): starting with no store document, a create-save yields
a store with exactly the one minted entry; a second create-save appends a
second entry, leaving the first unchanged, and the two entries have distinct
ids and distinct filenames provided the two saves observe different
`int(time.time())` readings. -/
theorem save_create_appends (req1 req2 : SaveRequest) (d1 d2 : QueryResult) (t1 t2 : Nat)
    (st0 : StoreState) (h0 : st0.datasetsFile = none)
    (hid1 : req1.id = none) (hid2 : req2.id = none)
    (h1 : parse_results d1 req1.config.dataset_type ≠ [])
    (h2 : parse_results d2 req2.config.dataset_type ≠ [])
    (ht : t1 ≠ t2) :
    (api_save req1 (some d1) t1 st0).1.datasetsFile =
        some (some [mkNewEntry req1 (str ("custom_") ++ natToStr t1)
          (str ("dataset_") ++ natToStr t1 ++ str (".json"))]) ∧
    (api_save req2 (some d2) t2 (api_save req1 (some d1) t1 st0).1).1.datasetsFile =
        some (some [mkNewEntry req1 (str ("custom_") ++ natToStr t1)
            (str ("dataset_") ++ natToStr t1 ++ str (".json")),
          mkNewEntry req2 (str ("custom_") ++ natToStr t2)
            (str ("dataset_") ++ natToStr t2 ++ str (".json"))]) ∧
    (str ("custom_") ++ natToStr t1) ≠ (str ("custom_") ++ natToStr t2) ∧
    (str ("dataset_") ++ natToStr t1 ++ str (".json")) ≠
      (str ("dataset_") ++ natToStr t2 ++ str (".json")) := by
  have hs1 : (api_save req1 (some d1) t1 st0).1.datasetsFile =
      some (some [mkNewEntry req1 (str ("custom_") ++ natToStr t1)
        (str ("dataset_") ++ natToStr t1 ++ str (".json"))]) := by
    unfold api_save
    simp [h0, hid1, h1, loadDatasets, pyTruthy]
  refine ⟨hs1, ?_, ?_, ?_⟩
  · generalize hG : (api_save req1 (some d1) t1 st0).1 = st1 at hs1 ⊢
    unfold api_save
    simp [hid2, h2, pyTruthy, hs1, loadDatasets]
  · intro he
    exact ht (natToStr_inj t1 t2 (List.append_cancel_left he))
  · intro he
    exact ht (natToStr_inj t1 t2 (List.append_cancel_left (List.append_cancel_right he)))

/-- Witness for claim C3 (amended) at two concrete clock readings. -/
theorem save_create_appends_witness :
    (api_save reqNew (some dataA) 0
        ({ datasetsFile := none, files := [] } : StoreState)).1.datasetsFile =
        some (some [mkNewEntry reqNew (str ("custom_") ++ natToStr 0)
          (str ("dataset_") ++ natToStr 0 ++ str (".json"))]) ∧
    (api_save reqNew (some dataA) 1
        (api_save reqNew (some dataA) 0
          ({ datasetsFile := none, files := [] } : StoreState)).1).1.datasetsFile =
        some (some [mkNewEntry reqNew (str ("custom_") ++ natToStr 0)
            (str ("dataset_") ++ natToStr 0 ++ str (".json")),
          mkNewEntry reqNew (str ("custom_") ++ natToStr 1)
            (str ("dataset_") ++ natToStr 1 ++ str (".json"))]) ∧
    (str ("custom_") ++ natToStr 0) ≠ (str ("custom_") ++ natToStr 1) ∧
    (str ("dataset_") ++ natToStr 0 ++ str (".json")) ≠
      (str ("dataset_") ++ natToStr 1 ++ str (".json")) :=
  save_create_appends reqNew reqNew dataA dataA 0 1
    ({ datasetsFile := none, files := [] } : StoreState) rfl rfl rfl
    (by
      intro hx
      have hlen : (parse_results dataA reqNew.config.dataset_type).length = 1 := rfl
      rw [hx] at hlen
      exact Nat.noConfusion hlen)
    (by
      intro hx
      have hlen : (parse_results dataA reqNew.config.dataset_type).length = 1 := rfl
      rw [hx] at hlen
      exact Nat.noConfusion hlen)
    (by omega)

/-- Claim C6: for a point-type binding whose coordinate is a WKT literal
`Point(<lon> <lat>)` built from plain numeric tokens, the normalizer parses
the first number into the record's `lng` field and the second into `lat`,
never swapped. -/
theorem normalizer_point_order (lbl itm a b : Str) (g : Option Str) (qa qb : ℚ)
    (hna : ∀ c ∈ a, numChar c = true) (hnb : ∀ c ∈ b, numChar c = true)
    (hpa : parseFloat a = some qa) (hpb : parseFloat b = some qb) :
    parseRow (str ("point"))
        { itemLabel := some lbl, item := some itm,
          coord := some (str ("Point(") ++ a ++ str (" ") ++ b ++ str (")")),
          geoShapeUrl := g } =
      some { label := lbl, id := lastSegment itm, lat := some qb, lng := some qa,
             geoShapeUrl := none } := by
  unfold parseRow
  have hpc := parseCoord_numeric a b qa qb hna hnb hpa hpb
  simp only [List.append_assoc] at hpc
  simp [hpc]

/-- Witness for claim C6 at the WKT literal `Point(2.3522 48.8566)`:
`mkRat 23522 10000` is 2.3522 and `mkRat 488566 10000` is 48.8566. -/
theorem normalizer_point_order_witness :
    parseRow (str ("point"))
        { itemLabel := some (str ("Paris")),
          item := some (str ("http://www.wikidata.org/entity/Q90")),
          coord := some (str ("Point(") ++ str ("2.3522") ++ str (" ") ++ str ("48.8566") ++
            str (")")),
          geoShapeUrl := none } =
      some { label := str ("Paris"),
             id := lastSegment (str ("http://www.wikidata.org/entity/Q90")),
             lat := some (mkRat 488566 10000), lng := some (mkRat 23522 10000),
             geoShapeUrl := none } :=
  normalizer_point_order (str ("Paris")) (str ("http://www.wikidata.org/entity/Q90"))
    (str ("2.3522")) (str ("48.8566")) none (mkRat 23522 10000) (mkRat 488566 10000)
    (by decide) (by decide) (by decide) (by decide)

/-- Claim C7: the normalizer is exactly a row-wise filter-map: each row that
parses contributes its record in order, each row that is missing a required
field (or otherwise fails) is dropped without affecting its siblings; in
particular a point row without `coord` and a polygon row without
`geoShapeUrl` are dropped, and on the concrete 3-row batch whose second row
lacks `coord` the output is exactly the two valid records in order. -/
theorem normalizer_drops_bad_rows :
    (∀ (d : QueryResult) (t : Str),
      parse_results d t = d.results.bindings.filterMap (parseRow t)) ∧
    (∀ bnd : Binding, bnd.coord = none → parseRow (str ("point")) bnd = none) ∧
    (∀ bnd : Binding, bnd.geoShapeUrl = none → parseRow (str ("polygon")) bnd = none) ∧
    parse_results dataRows3 (str ("point")) =
      [{ label := str ("A"), id := str ("Q1"), lat := some ((2 : ℚ)), lng := some ((1 : ℚ)),
         geoShapeUrl := none },
       { label := str ("C"), id := str ("Q3"), lat := some ((4 : ℚ)), lng := some ((3 : ℚ)),
         geoShapeUrl := none }] := by
  refine ⟨?_, ?_, ?_, by decide⟩
  · intro d t
    exact parseRows_eq_filterMap t d.results.bindings
  · intro bnd hc
    unfold parseRow
    cases hl : bnd.itemLabel <;> cases hi : bnd.item <;> simp [hc]
  · intro bnd hg
    unfold parseRow
    cases hl : bnd.itemLabel <;> cases hi : bnd.item <;> simp [hg]
    exact fun h => absurd h (by decide)

/-- Witness for claim C7: a concrete row without `coord` is dropped. -/
theorem normalizer_drops_bad_rows_witness :
    parseRow (str ("point")) bindNoCoord = none :=
  normalizer_drops_bad_rows.2.1 bindNoCoord rfl

/-- Claim C8 counterexample: a point-type config whose constraint property
string embeds the shape clause text makes the compiled query contain the
shape-binding triple, so "never the shape-binding clause" fails for
arbitrary `DatasetConfig` values. -/
theorem point_query_forged_shape_cex :
    cfgForged.dataset_type = str ("point") ∧
    containsSub (str ("  ?item wdt:P3896 ?geoShapeUrl.\n"))
      (build_query cfgForged) = true := by
  constructor
  · rfl
  · decide

/-- Claim C8 (amended): for configs whose item type and constraint strings
contain no `?` character (as real identifiers do), a point query contains
the coordinate output column and coordinate triple and neither shape clause,
and a polygon query conversely. -/
theorem query_type_clause_exclusive (config : DatasetConfig)
    (hit : noQuestion config.item_type)
    (hcs : ∀ c ∈ config.constraints, noQuestion c.property ∧ noQuestion c.value) :
    (config.dataset_type = str ("point") →
      containsSub (str ("?coord ")) (build_query config) = true ∧
      containsSub (str ("  ?item wdt:P625 ?coord.\n")) (build_query config) = true ∧
      containsSub (str ("?geoShapeUrl ")) (build_query config) = false ∧
      containsSub (str ("  ?item wdt:P3896 ?geoShapeUrl.\n")) (build_query config) = false) ∧
    (config.dataset_type = str ("polygon") →
      containsSub (str ("?geoShapeUrl ")) (build_query config) = true ∧
      containsSub (str ("  ?item wdt:P3896 ?geoShapeUrl.\n")) (build_query config) = true ∧
      containsSub (str ("?coord ")) (build_query config) = false ∧
      containsSub (str ("  ?item wdt:P625 ?coord.\n")) (build_query config) = false) := by
  constructor
  · intro hpt
    have hg := goodFor_build_query_point config hpt hit hcs
    exact ⟨build_query_point_has_col config hpt, build_query_point_has_triple config hpt,
      not_containsSub_of_seed (by decide) hg.1, not_containsSub_of_seed (by decide) hg.1⟩
  · intro hpt
    have hg := goodFor_build_query_polygon config hpt hit hcs
    exact ⟨build_query_polygon_has_col config hpt, build_query_polygon_has_triple config hpt,
      not_containsSub_of_seed (by decide) hg.1, not_containsSub_of_seed (by decide) hg.1⟩

/-- Witness for claim C8 (amended) at a concrete point config. -/
theorem query_type_clause_exclusive_witness :
    containsSub (str ("?coord ")) (build_query cfgPt) = true ∧
    containsSub (str ("  ?item wdt:P625 ?coord.\n")) (build_query cfgPt) = true ∧
    containsSub (str ("?geoShapeUrl ")) (build_query cfgPt) = false ∧
    containsSub (str ("  ?item wdt:P3896 ?geoShapeUrl.\n")) (build_query cfgPt) = false :=
  (query_type_clause_exclusive cfgPt (by decide) (by decide)).1 rfl

/-- Claim C9: a constraint whose property starts with the `-` marker compiles
to the negated-existence filter over the marker-stripped property and the
given value, and to nothing else; a constraint without the marker compiles
to the positive triple; concretely, the `-P17`/`Q183` config's query
contains the negated block over `P17`/`Q183` and no positive triple for it. -/
theorem negated_constraint_clause :
    (∀ (c : Constraint) (p : Str), c.property = '-' :: p →
      constraintClause c =
        str ("  FILTER NOT EXISTS \x7b ?item wdt:") ++ p ++ str (" wd:") ++ c.value ++
          str (". \x7d\n")) ∧
    (∀ c : Constraint, (str ("-")).isPrefixOf c.property = false →
      constraintClause c =
        str ("  ?item wdt:") ++ c.property ++ str (" wd:") ++ c.value ++ str (".\n")) ∧
    containsSub (str ("  FILTER NOT EXISTS \x7b ?item wdt:P17 wd:Q183. \x7d\n"))
      (build_query cfgNeg) = true ∧
    containsSub (str ("  ?item wdt:P17 wd:Q183.\n")) (build_query cfgNeg) = false ∧
    containsSub (str ("  ?item wdt:-P17 wd:Q183.\n")) (build_query cfgNeg) = false := by
  refine ⟨?_, ?_, by decide, by decide, by decide⟩
  · intro c p hp
    unfold constraintClause
    rw [if_pos (by rw [hp]; simp [str, List.isPrefixOf]), hp]
    simp
  · intro c h
    unfold constraintClause
    rw [if_neg (by simp [h])]

/-- Witness for claim C9 at the `-P17`/`Q183` constraint. -/
theorem negated_constraint_clause_witness :
    constraintClause { property := str ("-P17"), value := str ("Q183") } =
      str ("  FILTER NOT EXISTS \x7b ?item wdt:") ++ str ("P17") ++ str (" wd:") ++
        str ("Q183") ++ str (". \x7d\n") :=
  negated_constraint_clause.1 { property := str ("-P17"), value := str ("Q183") }
    (str ("P17")) rfl

/-- Claim C10: the shape-cache key is a function of the `'+'`-to-space
normalized URL only; a call finding its cache file serves those stored
contents without fetching; after a first call stores a fetch result, any
later call with the same URL serves the stored body, performs no fetch, and
leaves the cache unchanged. -/
theorem shape_cache_stable_and_no_refetch :
    (∀ (hashHex : Str → Str) (u1 u2 : Str),
      strReplace (str ("+")) (str (" ")) u1 = strReplace (str ("+")) (str (" ")) u2 →
      cacheFilename hashHex u1 = cacheFilename hashHex u2) ∧
    (∀ (hashHex : Str → Str) (fr : Option Str) (u c : Str) (st : MapsState),
      lookupA st.files (cacheFilename hashHex u) = some c →
      proxy_map hashHex fr u st = (st, .file c, false)) ∧
    (∀ (hashHex : Str → Str) (u body : Str) (st : MapsState) (fr2 : Option Str),
      lookupA st.files (cacheFilename hashHex u) = none →
      proxy_map hashHex (some body) u st =
        (({ files := writeA st.files (cacheFilename hashHex u) body } : MapsState),
          .file body, true) ∧
      proxy_map hashHex fr2 u
          ({ files := writeA st.files (cacheFilename hashHex u) body } : MapsState) =
        (({ files := writeA st.files (cacheFilename hashHex u) body } : MapsState),
          .file body, false)) := by
  refine ⟨?_, ?_, ?_⟩
  · intro hashHex u1 u2 he
    unfold cacheFilename
    rw [he]
  · intro hashHex fr u c st hc
    unfold proxy_map
    simp only [hc]
  · intro hashHex u body st fr2 hn
    constructor
    · unfold proxy_map
      simp only [hn]
    · unfold proxy_map
      simp only [lookupA_writeA]

/-- Witness for claim C10 with an identity stand-in hash at URL `a+b`. -/
theorem shape_cache_stable_and_no_refetch_witness :
    proxy_map (fun s => s) (some (str ("B"))) (str ("a+b")) ({ files := [] } : MapsState) =
      (({ files := writeA ([] : List (Str × Str))
            (cacheFilename (fun s => s) (str ("a+b"))) (str ("B")) } : MapsState),
        .file (str ("B")), true) ∧
    proxy_map (fun s => s) none (str ("a+b"))
        ({ files := writeA ([] : List (Str × Str))
            (cacheFilename (fun s => s) (str ("a+b"))) (str ("B")) } : MapsState) =
      (({ files := writeA ([] : List (Str × Str))
            (cacheFilename (fun s => s) (str ("a+b"))) (str ("B")) } : MapsState),
        .file (str ("B")), false) :=
  shape_cache_stable_and_no_refetch.2.2 (fun s => s) (str ("a+b")) (str ("B"))
    ({ files := [] } : MapsState) none rfl
